import Mathlib

/-!
Shallow embedding of the analytical core of the `revelaacor` trading
signal repository: the scoring engine and weight table of
`src/ai-engine/AIEngine.js`, the RSI computation of
`src/data-collectors/DataCollector.js`, and the pullback analyzer and
signal validator of `src/signal-generator/SignalGenerator.js`.
JavaScript numbers are modelled as exact rationals (`ℚ`); JavaScript
truthiness of a numeric value is modelled as "present and nonzero";
absent object fields are modelled with `Option`.
-/

namespace Revela

/-- Direction of the predicted next candle: GREEN is UP, RED is DOWN. -/
inductive Color where
  | GREEN
  | RED
  deriving DecidableEq, Repr

/-! ## Weight table (`AIEngine` constructor, lines 13-31) -/

structure TechnicalWeights where
  rsi : ℚ
  macd : ℚ
  bollinger : ℚ
  sma : ℚ
  ema : ℚ
  deriving DecidableEq, Repr

structure PriceActionWeights where
  patterns : ℚ
  pullbacks : ℚ
  volume : ℚ
  deriving DecidableEq, Repr

structure MarketWeights where
  volatility : ℚ
  trend : ℚ
  momentum : ℚ
  deriving DecidableEq, Repr

structure Weights where
  technical : TechnicalWeights
  priceAction : PriceActionWeights
  market : MarketWeights
  deriving DecidableEq, Repr

/-- The weight values installed by the `AIEngine` constructor. -/
def initialWeights : Weights :=
  { technical := { rsi := 15/100, macd := 20/100, bollinger := 15/100, sma := 10/100, ema := 10/100 }
    priceAction := { patterns := 25/100, pullbacks := 30/100, volume := 15/100 }
    market := { volatility := 10/100, trend := 15/100, momentum := 20/100 } }

/-! ## Feature bundle (the shape read by `AIEngine.calculateScore`) -/

/-- Technical-indicator features; only the fields `calculateScore` reads
are modelled. `none` stands for a JavaScript `undefined` field. -/
structure TechnicalFeatures where
  rsi : Option ℚ
  macd : Option ℚ
  macdSignal : Option ℚ
  bollingerLower : Option ℚ
  bollingerUpper : Option ℚ
  deriving DecidableEq, Repr

structure PriceActionFeatures where
  patterns : Option (List String)
  deriving DecidableEq, Repr

structure PullbackFeatures where
  trend : String
  pullbacks : ℚ
  deriving DecidableEq, Repr

/-- Market-context features; `calculateScore` only dereferences
`features.market?.price`. -/
structure MarketFeatures where
  price : Option ℚ
  deriving DecidableEq, Repr

structure DerivedFeatures where
  priceMomentum : ℚ
  volumeTrend : ℚ
  deriving DecidableEq, Repr

structure Features where
  technical : Option TechnicalFeatures
  priceAction : Option PriceActionFeatures
  pullback : Option PullbackFeatures
  market : Option MarketFeatures
  derived : Option DerivedFeatures
  deriving DecidableEq, Repr

/-- A feature bundle with every sub-object absent. -/
def emptyFeatures : Features :=
  { technical := none, priceAction := none, pullback := none, market := none, derived := none }

/-- A feature bundle in which only the oscillator (RSI) evidence rule can
fire: RSI present at 50, everything else absent. -/
def rsiOnlyFeatures : Features :=
  { technical := some { rsi := some 50, macd := none, macdSignal := none,
                        bollingerLower := none, bollingerUpper := none }
    priceAction := none, pullback := none, market := none, derived := none }

/-! ## Scoring engine (`AIEngine.calculateScore`, lines 357-419)

The method is invoked on the engine object, so its state (the weight
table) is passed explicitly; the method body never dereferences
`this.weights`, which the embedding makes visible by never using the
argument. In the Bollinger branch, the source guards with JavaScript
truthiness (`tech.bollingerLower && tech.bollingerUpper &&
features.market?.price`), i.e. each value must be present and nonzero. -/

def calculateScore (w : Weights) (features : Features) (color : Color) : ℚ :=
  let techScore : ℚ :=
    match features.technical with
    | none => 0
    | some tech =>
      (match tech.rsi with
       | none => 0
       | some r =>
         (if color = Color.GREEN ∧ r < 70 then (10 : ℚ)/100 else 0)
         + (if color = Color.RED ∧ r > 30 then (10 : ℚ)/100 else 0))
      + (match tech.macd, tech.macdSignal with
         | some m, some s =>
           (if color = Color.GREEN ∧ m > s then (15 : ℚ)/100 else 0)
           + (if color = Color.RED ∧ m < s then (15 : ℚ)/100 else 0)
         | _, _ => 0)
      + (match tech.bollingerLower, tech.bollingerUpper, Option.bind features.market MarketFeatures.price with
         | some lo, some hi, some p =>
           if lo ≠ 0 ∧ hi ≠ 0 ∧ p ≠ 0 then
             (if color = Color.GREEN ∧ p < lo then (20 : ℚ)/100 else 0)
             + (if color = Color.RED ∧ p > hi then (20 : ℚ)/100 else 0)
           else 0
         | _, _, _ => 0)
  let paScore : ℚ :=
    match features.priceAction with
    | none => 0
    | some pa =>
      match pa.patterns with
      | none => 0
      | some pats =>
        (if color = Color.GREEN ∧ "hammer" ∈ pats then (20 : ℚ)/100 else 0)
        + (if color = Color.RED ∧ "shooting_star" ∈ pats then (20 : ℚ)/100 else 0)
  let pbScore : ℚ :=
    match features.pullback with
    | none => 0
    | some pb =>
      (if pb.trend = "uptrend" ∧ color = Color.GREEN then (15 : ℚ)/100 else 0)
      + (if pb.trend = "downtrend" ∧ color = Color.RED then (15 : ℚ)/100 else 0)
      + (if pb.pullbacks > 0 ∧ color = Color.GREEN then (10 : ℚ)/100 else 0)
  let derivedScore : ℚ :=
    match features.derived with
    | none => 0
    | some d =>
      (if color = Color.GREEN ∧ d.priceMomentum > 0 then (10 : ℚ)/100 else 0)
      + (if color = Color.RED ∧ d.priceMomentum < 0 then (10 : ℚ)/100 else 0)
      + (if color = Color.GREEN ∧ d.volumeTrend > 0 then (5 : ℚ)/100 else 0)
      + (if color = Color.RED ∧ d.volumeTrend < 0 then (5 : ℚ)/100 else 0)
  max 0 (min 1 (techScore + paScore + pbScore + derivedScore))

/-- `AIEngine.predict` (lines 339-355), on an initialized engine: the
ternary `greenScore > redScore ? 'GREEN' : 'RED'`. -/
def predict (w : Weights) (features : Features) : Color :=
  if calculateScore w features Color.GREEN > calculateScore w features Color.RED
  then Color.GREEN else Color.RED

/-- The engine state `AIEngine.predict` reads: the `isInitialized` flag
set at the end of `initialize()` and the weight table. (`SignalGenerator`
constructs its own engine and never calls `initialize`, so its engine
stays uninitialized.) -/
structure EngineState where
  isInitialized : Bool
  weights : Weights
  deriving DecidableEq, Repr

/-- `AIEngine.predict` in full (lines 339-355), on an arbitrary engine
state. When the engine is not initialized the source answers
`Math.random() > 0.5 ? 'GREEN' : 'RED'`; the value drawn from
`Math.random()` is passed in explicitly as `rand`. The `catch` branch
(lines 351-353) also answers from `Math.random()`, but it is unreachable
in the pure embedding because `calculateScore` cannot throw. -/
def predictFull (e : EngineState) (features : Features) (rand : ℚ) : Color :=
  if !e.isInitialized then
    if rand > 1/2 then Color.GREEN else Color.RED
  else
    predict e.weights features

/-- `predictFull` with the engine state threaded explicitly: the method
body performs no assignment, so the state comes back unchanged. -/
def predictFullSt (e : EngineState) (features : Features) (rand : ℚ) : Color × EngineState :=
  (predictFull e features rand, e)

/-- An engine state on which `initialize()` was never run, as in
`SignalGenerator`'s own engine. -/
def uninitEngine : EngineState :=
  { isInitialized := false, weights := initialWeights }

/-- JavaScript `Math.round` on a rational: floor of `x + 1/2`. -/
def jsRound (x : ℚ) : ℤ :=
  ⌊x + 1/2⌋

/-- `AIEngine.getConfidence` (lines 467-481). -/
def getConfidence (w : Weights) (features : Features) : ℤ :=
  let greenScore := calculateScore w features Color.GREEN
  let redScore := calculateScore w features Color.RED
  let totalScore := greenScore + redScore
  if totalScore = 0 then 50
  else jsRound (max greenScore redScore / totalScore * 100)

/-! ## Training simulator (`AIEngine.simulateTraining`, `updateWeights`,
`train`, lines 66-92, 296-337, 421-440) -/

structure TrainResults where
  accuracy : ℚ
  correct : ℕ
  total : ℕ
  epochs : ℕ
  deriving DecidableEq, Repr

/-- One prepared supervised sample of `prepareTrainingData`. -/
structure Sample where
  pair : String
  features : Features
  target : Color
  timestamp : ℤ
  deriving DecidableEq, Repr

/-- Batch splitting of the inner loop `for (i = 0; i < n; i += batchSize)`.
A batch size of zero would never advance in the source; it is modelled
as producing no batches. -/
def chunksOf {α : Type} (bs : ℕ) : List α → List (List α)
  | [] => []
  | x :: xs =>
    if h : bs = 0 then []
    else (x :: xs).take bs :: chunksOf bs ((x :: xs).drop bs)
  termination_by l => l.length
  decreasing_by
    simp only [List.length_drop, List.length_cons]
    omega

/-- `AIEngine.simulateTraining`: replays every sample through `predict`
once per epoch, in batches, accumulating the running (correct, total)
pair, and reports accuracy as `(correct / total) * 100`. -/
def simulateTraining (w : Weights) (epochs batchSize : ℕ) (trainingData : List Sample) : TrainResults :=
  let ct : ℕ × ℕ :=
    (List.range epochs).foldl (fun acc _ =>
      (chunksOf batchSize trainingData).foldl (fun acc2 batch =>
        batch.foldl (fun acc3 sample =>
          if predict w sample.features = sample.target
          then (acc3.1 + 1, acc3.2 + 1)
          else (acc3.1, acc3.2 + 1)) acc2) acc) (0, 0)
  { accuracy := ((ct.1 : ℚ) / (ct.2 : ℚ)) * 100
    correct := ct.1
    total := ct.2
    epochs := epochs }

/-- Uniform rescaling of every weight in every category. -/
def scaleWeights (c : ℚ) (w : Weights) : Weights :=
  { technical := { rsi := w.technical.rsi * c, macd := w.technical.macd * c,
                   bollinger := w.technical.bollinger * c, sma := w.technical.sma * c,
                   ema := w.technical.ema * c }
    priceAction := { patterns := w.priceAction.patterns * c,
                     pullbacks := w.priceAction.pullbacks * c,
                     volume := w.priceAction.volume * c }
    market := { volatility := w.market.volatility * c, trend := w.market.trend * c,
                momentum := w.market.momentum * c } }

/-- `AIEngine.updateWeights`: the nested `Object.keys` loops multiply each
weight of each category by 1.01 (accuracy above 80) or by 0.99 (accuracy
below 60); otherwise no weight is touched. -/
def updateWeights (results : TrainResults) (w : Weights) : Weights :=
  if results.accuracy > 80 then
    { technical := { rsi := w.technical.rsi * (101/100), macd := w.technical.macd * (101/100),
                     bollinger := w.technical.bollinger * (101/100), sma := w.technical.sma * (101/100),
                     ema := w.technical.ema * (101/100) }
      priceAction := { patterns := w.priceAction.patterns * (101/100),
                       pullbacks := w.priceAction.pullbacks * (101/100),
                       volume := w.priceAction.volume * (101/100) }
      market := { volatility := w.market.volatility * (101/100), trend := w.market.trend * (101/100),
                  momentum := w.market.momentum * (101/100) } }
  else if results.accuracy < 60 then
    { technical := { rsi := w.technical.rsi * (99/100), macd := w.technical.macd * (99/100),
                     bollinger := w.technical.bollinger * (99/100), sma := w.technical.sma * (99/100),
                     ema := w.technical.ema * (99/100) }
      priceAction := { patterns := w.priceAction.patterns * (99/100),
                       pullbacks := w.priceAction.pullbacks * (99/100),
                       volume := w.priceAction.volume * (99/100) }
      market := { volatility := w.market.volatility * (99/100), trend := w.market.trend * (99/100),
                  momentum := w.market.momentum * (99/100) } }
  else w

/-- `AIEngine.train`: prepares supervised samples from the raw historical
records, skips (leaving the weights untouched and reporting no accuracy)
when fewer than 100 samples were prepared, and otherwise runs
`simulateTraining` followed by `updateWeights`. The preparation step is
abstracted as a parameter so that the skip guard is settled for every
possible preparation outcome. -/
def train (Raw : Type) (prepare : List Raw → List Sample) (w : Weights)
    (epochs batchSize : ℕ) (data : List Raw) : Weights × Option TrainResults :=
  let trainingData := prepare data
  if trainingData.length < 100 then (w, none)
  else
    let results := simulateTraining w epochs batchSize trainingData
    (updateWeights results w, some results)

/-! ## RSI (`DataCollector.calculateRSI`, lines 228-247)

The source loop runs `for (let i = 1; i <= period; i++)` over
`prices[i] - prices[i-1]`: it reads the transitions at the START of the
array. `List.range period` supplies the loop counter shifted by one. -/

def calculateRSI (prices : List ℚ) (period : ℕ) : Option ℚ :=
  if prices.length < period + 1 then none
  else
    let gl : ℚ × ℚ :=
      (List.range period).foldl (fun gl i =>
        let change := prices.getD (i + 1) 0 - prices.getD i 0
        if change > 0 then (gl.1 + change, gl.2) else (gl.1, gl.2 + |change|)) (0, 0)
    let avgGain := gl.1 / period
    let avgLoss := gl.2 / period
    if avgLoss = 0 then some 100
    else some (100 - 100 / (1 + avgGain / avgLoss))

/-- The consecutive price deltas `prices[i+1] - prices[i]`. -/
def deltasList (prices : List ℚ) : List ℚ :=
  List.zipWith (fun a b => b - a) prices prices.tail

/-- Sum of the positive deltas of a delta list. -/
def gainSum (l : List ℚ) : ℚ :=
  (l.map (fun d => if d > 0 then d else 0)).sum

/-- Sum of the magnitudes of the non-positive deltas of a delta list. -/
def lossSum (l : List ℚ) : ℚ :=
  (l.map (fun d => if d > 0 then 0 else |d|)).sum

/-- The relative-strength oscillator as the specification words it:
average gain over average loss across the LAST `period` transitions of
the sequence, mapped through `100 - 100 / (1 + rs)`, with the value 100
when the average loss is zero. Stated for comparison against
`calculateRSI`. -/
def rsiSpecLastTransitions (prices : List ℚ) (period : ℕ) : Option ℚ :=
  if prices.length < period + 1 then none
  else
    let deltas := (deltasList prices).drop ((deltasList prices).length - period)
    let avgGain := gainSum deltas / period
    let avgLoss := lossSum deltas / period
    if avgLoss = 0 then some 100
    else some (100 - 100 / (1 + avgGain / avgLoss))

/-! ## Pullback analyzer (`SignalGenerator`, lines 94-226) -/

/-- An index/price pair marking a strict local extremum. -/
structure Extremum where
  index : ℕ
  price : ℚ
  deriving DecidableEq, Repr

/-- The scan `for (i = 1; i < prices.length - 1; i++)` collecting strict
local maxima, tracking the index of the head of the remaining list. -/
def findPeaksAux : ℕ → List ℚ → List Extremum
  | i, a :: b :: c :: rest =>
    (if a < b ∧ c < b then [⟨i + 1, b⟩] else []) ++ findPeaksAux (i + 1) (b :: c :: rest)
  | _, _ => []

/-- `SignalGenerator.findPeaks`. -/
def findPeaks (prices : List ℚ) : List Extremum :=
  findPeaksAux 0 prices

def findValleysAux : ℕ → List ℚ → List Extremum
  | i, a :: b :: c :: rest =>
    (if b < a ∧ b < c then [⟨i + 1, b⟩] else []) ++ findValleysAux (i + 1) (b :: c :: rest)
  | _, _ => []

/-- `SignalGenerator.findValleys`. -/
def findValleys (prices : List ℚ) : List Extremum :=
  findValleysAux 0 prices

/-- `SignalGenerator.calculatePullbackStrength`: mean of
depth × recovery over the given (start, valley, end) index triples,
reading prices by index. -/
def calculatePullbackStrength (idxTriples : List (ℕ × ℕ × ℕ)) (prices : List ℚ) : ℚ :=
  match idxTriples with
  | [] => 0
  | _ =>
    (idxTriples.map (fun t =>
      let startPrice := prices.getD t.1 0
      let valleyPrice := prices.getD t.2.1 0
      let endPrice := prices.getD t.2.2 0
      ((startPrice - valleyPrice) / startPrice) * ((endPrice - valleyPrice) / valleyPrice))).sum
    / idxTriples.length

structure Pullback where
  startIndex : ℕ
  valleyIndex : ℕ
  endIndex : ℕ
  peakPrice : ℚ
  valleyPrice : ℚ
  nextPeakPrice : ℚ
  depth : ℚ
  recovery : ℚ
  strength : ℚ
  deriving DecidableEq, Repr

/-- `SignalGenerator.identifyPullbacks`: each consecutive pair of peaks,
paired with the first valley whose index lies strictly between them. -/
def identifyPullbacks (peaks valleys : List Extremum) (prices : List ℚ) : List Pullback :=
  (peaks.zip peaks.tail).filterMap (fun pk =>
    (valleys.find? (fun v => decide (pk.1.index < v.index) && decide (v.index < pk.2.index))).map
      (fun valley =>
        { startIndex := pk.1.index
          valleyIndex := valley.index
          endIndex := pk.2.index
          peakPrice := pk.1.price
          valleyPrice := valley.price
          nextPeakPrice := pk.2.price
          depth := (pk.1.price - valley.price) / pk.1.price
          recovery := (pk.2.price - valley.price) / valley.price
          strength := calculatePullbackStrength [(pk.1.index, valley.index, pk.2.index)] prices }))

structure PullbackMetrics where
  avgDepth : ℚ
  avgRecovery : ℚ
  maxDepth : ℚ
  minDepth : ℚ
  successRate : ℚ
  deriving DecidableEq, Repr

/-- `SignalGenerator.calculatePullbackMetrics`. `Math.max(...depths)` and
`Math.min(...depths)` over the nonempty depth list are folds of
`max`/`min` seeded with the first depth. -/
def calculatePullbackMetrics (pullbacks : List Pullback) (prices : List ℚ) (volumes : List ℚ) : PullbackMetrics :=
  match pullbacks with
  | [] => { avgDepth := 0, avgRecovery := 0, maxDepth := 0, minDepth := 0, successRate := 0 }
  | _ =>
    let depths := pullbacks.map Pullback.depth
    let recoveries := pullbacks.map Pullback.recovery
    { avgDepth := depths.sum / depths.length
      avgRecovery := recoveries.sum / recoveries.length
      maxDepth := depths.foldl max (depths.headD 0)
      minDepth := depths.foldl min (depths.headD 0)
      successRate := ((recoveries.filter (fun r => decide (r > 1/2))).length : ℚ) / recoveries.length }

/-- `SignalGenerator.determineTrend`. -/
def determineTrend (prices : List ℚ) : String :=
  if prices.length < 10 then "neutral"
  else
    let first := prices.headD 0
    let last := prices.getLastD 0
    let change := (last - first) / first
    if change > 5/100 then "strong_uptrend"
    else if change > 2/100 then "uptrend"
    else if change < -(5/100) then "strong_downtrend"
    else if change < -(2/100) then "downtrend"
    else "sideways"

/-- A market-data row as read by the analyzer and the validator:
timestamp, closing price, and (possibly absent) volume. -/
structure Obs where
  timestamp : ℤ
  price : ℚ
  volume : Option ℚ
  deriving DecidableEq, Repr

structure PullbackAnalysis where
  hasValidPullback : Bool
  pullbacks : List Pullback
  metrics : PullbackMetrics
  peaks : ℕ
  valleys : ℕ
  trend : String
  strength : ℚ
  deriving DecidableEq, Repr

/-- `SignalGenerator.analyzePullbacks` (lines 94-117). -/
def analyzePullbacks (marketData : List Obs) : PullbackAnalysis :=
  let prices := marketData.map Obs.price
  let volumes := marketData.map (fun d => d.volume.getD 0)
  let peaks := findPeaks prices
  let valleys := findValleys prices
  let pullbacks := identifyPullbacks peaks valleys prices
  let metrics := calculatePullbackMetrics pullbacks prices volumes
  { hasValidPullback := decide (pullbacks.length > 0) && decide (metrics.avgDepth > 2/100)
    pullbacks := pullbacks
    metrics := metrics
    peaks := peaks.length
    valleys := valleys.length
    trend := determineTrend prices
    strength := calculatePullbackStrength
      (pullbacks.map (fun pb => (pb.startIndex, pb.valleyIndex, pb.endIndex))) prices }

/-! ## Signal validator (`SignalGenerator.validateSignal`, lines 337-380) -/

/-- The last `n` elements, as JavaScript `slice(-n)`. -/
def takeLast {α : Type} (n : ℕ) (l : List α) : List α :=
  l.drop (l.length - n)

/-- The per-step returns `(p[i] - p[i-1]) / p[i-1]`. -/
def returnsOf (prices : List ℚ) : List ℚ :=
  List.zipWith (fun a b => (b - a) / a) prices prices.tail

/-- The population variance of the returns of a price list; zero when
fewer than two prices exist. `SignalGenerator.calculateVolatility` is
the square root of this value, and the validator's comparison
`volatility < 0.001` is equivalent (for the nonnegative variance) to
`variance < 0.001²`, which is how the check is embedded. -/
def returnsVariance (prices : List ℚ) : ℚ :=
  if prices.length < 2 then 0
  else
    let returns := returnsOf prices
    let mean := returns.sum / returns.length
    (returns.map (fun r => (r - mean) ^ 2)).sum / returns.length

/-- The fields of a candidate signal object that `validateSignal` reads:
its confidence and `technicalAnalysis.pullbackAnalysis.hasValidPullback`
(`none` when the `pullbackAnalysis` object is absent). -/
structure SignalRec where
  confidence : ℤ
  pullbackHasValid : Option Bool
  deriving DecidableEq, Repr

/-- `SignalGenerator.validateSignal`: the five gates in source order.
Indexing the latest element of an empty window would throw, which the
enclosing `try/catch` turns into `false`. The volume gate is guarded by
JavaScript truthiness: it only fires when the volume is present AND
nonzero. -/
def validateSignal (confidenceThreshold : ℤ) (signal : SignalRec)
    (marketData : List Obs) (now : ℤ) : Bool :=
  if signal.confidence < confidenceThreshold then false
  else
    match marketData.getLast? with
    | none => false
    | some latestData =>
      if now - latestData.timestamp > 300000 then false
      else if (match latestData.volume with
               | some v => decide (v ≠ 0) && decide (v < 1000)
               | none => false) then false
      else if returnsVariance ((takeLast 10 marketData).map Obs.price) < 1/1000000 then false
      else
        match signal.pullbackHasValid with
        | some b => if b then true else false
        | none => true

/-! ## Concrete inputs used to evaluate the definitions -/

/-- Fifteen strictly increasing prices: all fourteen RSI deltas are gains. -/
def pricesAllGains : List ℚ :=
  [1, 2, 3, 4, 5, 6, 7, 8, 9, 10, 11, 12, 13, 14, 15]

/-- Sixteen prices: fourteen leading gains followed by one large drop at
the end. The first fourteen transitions are all gains; the last
fourteen transitions contain the drop. -/
def pricesGainThenDrop : List ℚ :=
  [1, 2, 3, 4, 5, 6, 7, 8, 9, 10, 11, 12, 13, 14, 15, 0]

/-- A five-sample window with two peaks (indices 1 and 3) and one valley
(index 2) between them: exactly one pullback of depth 2/3. -/
def mdPullback : List Obs :=
  [⟨0, 1, some 5000⟩, ⟨0, 3, some 5000⟩, ⟨0, 1, some 5000⟩, ⟨0, 2, some 5000⟩, ⟨0, 1, some 5000⟩]

/-- The single pullback that `analyzePullbacks` identifies in `mdPullback`. -/
def pbWitness : Pullback :=
  { startIndex := 1, valleyIndex := 2, endIndex := 3, peakPrice := 3, valleyPrice := 1,
    nextPeakPrice := 2, depth := 2/3, recovery := 1, strength := 2/3 }

/-- A one-row window whose latest volume is present, nonzero and below the
floor of 1000. -/
def mdVolLow : List Obs :=
  [⟨0, 100, some 500⟩]

/-- A three-row window with alternating prices (high return variance),
fresh timestamps, and a PRESENT volume of exactly 0 on every row —
below the 1000 floor, yet falsy in JavaScript. -/
def mdVolZero : List Obs :=
  [⟨0, 100, some 0⟩, ⟨0, 200, some 0⟩, ⟨0, 100, some 0⟩]

/-! ## Helper lemmas -/

theorem green_ne_red : Color.GREEN ≠ Color.RED :=
  fun h => Color.noConfusion h

theorem score_nonneg (w : Weights) (f : Features) (c : Color) :
    0 ≤ calculateScore w f c :=
  le_max_left 0 _

theorem getConfidence_bounds (w : Weights) (f : Features) :
    50 ≤ getConfidence w f ∧ getConfidence w f ≤ 100 := by
  have hg : 0 ≤ calculateScore w f Color.GREEN := score_nonneg w f Color.GREEN
  have hr : 0 ≤ calculateScore w f Color.RED := score_nonneg w f Color.RED
  unfold getConfidence
  set g := calculateScore w f Color.GREEN with hgdef
  set r := calculateScore w f Color.RED with hrdef
  by_cases h0 : g + r = 0
  · rw [if_pos h0]
    norm_num
  · rw [if_neg h0]
    have hpos : 0 < g + r := lt_of_le_of_ne (by linarith) (Ne.symm h0)
    have h2 : g + r ≤ 2 * max g r := by
      rcases le_total g r with h | h
      · rw [max_eq_right h]; linarith
      · rw [max_eq_left h]; linarith
    have hmax_le : max g r ≤ g + r := max_le (by linarith) (by linarith)
    have hx1 : (50 : ℚ) ≤ max g r / (g + r) * 100 := by
      rw [div_mul_eq_mul_div, le_div_iff₀ hpos]
      linarith
    have hx2 : max g r / (g + r) * 100 ≤ 100 := by
      rw [div_mul_eq_mul_div, div_le_iff₀ hpos]
      linarith
    constructor
    · unfold jsRound
      exact Int.le_floor.mpr (by push_cast; linarith)
    · unfold jsRound
      have hfl : ⌊max g r / (g + r) * 100 + 1/2⌋ < 101 :=
        Int.floor_lt.mpr (by push_cast; linarith)
      omega

theorem deltasList_length (prices : List ℚ) :
    (deltasList prices).length = prices.length - 1 := by
  unfold deltasList
  rw [List.length_zipWith, List.length_tail]
  omega

theorem deltasList_getElem (prices : List ℚ) (j : ℕ) (h : j < (deltasList prices).length) :
    (deltasList prices)[j] = prices.getD (j + 1) 0 - prices.getD j 0 := by
  have hlen := deltasList_length prices
  have hj1 : j < prices.length := by omega
  have hj2 : j + 1 < prices.length := by omega
  unfold deltasList
  rw [List.getElem_zipWith, List.getElem_tail]
  rw [List.getD_eq_getElem _ _ hj2, List.getD_eq_getElem _ _ hj1]

theorem rsi_fold_eq (prices : List ℚ) (n : ℕ) (hn : n + 1 ≤ prices.length) (g l : ℚ) :
    (List.range n).foldl (fun gl i =>
        let change := prices.getD (i + 1) 0 - prices.getD i 0
        if change > 0 then (gl.1 + change, gl.2) else (gl.1, gl.2 + |change|)) (g, l)
      = (g + gainSum ((deltasList prices).take n), l + lossSum ((deltasList prices).take n)) := by
  induction n generalizing g l with
  | zero => simp [gainSum, lossSum]
  | succ m ih =>
    have hm : m + 1 ≤ prices.length := by omega
    have hlen : m < (deltasList prices).length := by
      rw [deltasList_length]; omega
    have hval : (deltasList prices)[m] = prices.getD (m + 1) 0 - prices.getD m 0 :=
      deltasList_getElem prices m hlen
    have htake : (deltasList prices).take (m + 1)
        = (deltasList prices).take m ++ [prices.getD (m + 1) 0 - prices.getD m 0] := by
      rw [List.take_succ, List.getElem?_eq_getElem hlen, hval]
      rfl
    rw [List.range_succ, List.foldl_append, ih hm]
    rw [htake]
    unfold gainSum lossSum
    simp only [List.map_append, List.sum_append, List.map_cons, List.map_nil,
      List.sum_cons, List.sum_nil, List.foldl_cons, List.foldl_nil]
    by_cases hd : prices.getD (m + 1) 0 - prices.getD m 0 > 0
    · simp only [if_pos hd, Prod.mk.injEq]
      constructor <;> ring
    · simp only [if_neg hd, Prod.mk.injEq]
      constructor <;> ring

/-! ## Claim theorems -/

/-- C1 (counterexample): in the scoring function each firing evidence rule
contributes a hardcoded constant, not the corresponding WeightTable
entry. On a bundle where only the oscillator rule fires for GREEN, the
score is 0.10 while the weight `technical.rsi` is 0.15, and rescaling
every weight (as a training update does) leaves the score unchanged. -/
theorem score_constants_counterexample :
    calculateScore initialWeights rsiOnlyFeatures Color.GREEN = 10/100 ∧
    initialWeights.technical.rsi = 15/100 ∧
    ((10 : ℚ)/100) ≠ 15/100 ∧
    calculateScore (updateWeights ⟨90, 90, 100, 100⟩ initialWeights) rsiOnlyFeatures Color.GREEN
      = calculateScore initialWeights rsiOnlyFeatures Color.GREEN := by
  refine ⟨?_, rfl, by norm_num, rfl⟩
  norm_num [calculateScore, rsiOnlyFeatures, min_def, max_def, green_ne_red]

/-- C1 (amended): `calculateScore` never reads the weight table, so the
score, the prediction and the confidence are invariant under any change
of the weight state; each firing rule contributes a fixed hardcoded
amount instead of the corresponding WeightTable entry. -/
theorem score_weight_independent (w w' : Weights) (f : Features) (c : Color) :
    calculateScore w f c = calculateScore w' f c ∧
    predict w f = predict w' f ∧
    getConfidence w f = getConfidence w' f :=
  ⟨rfl, rfl, rfl⟩

/-- C2 (counterexample): on the all-absent feature bundle both directional
scores are equal (both zero), yet `predict` returns RED (DOWN), not
GREEN (UP) as the claim states. -/
theorem tie_prediction_counterexample :
    calculateScore initialWeights emptyFeatures Color.GREEN
      = calculateScore initialWeights emptyFeatures Color.RED ∧
    predict initialWeights emptyFeatures = Color.RED := by
  refine ⟨rfl, ?_⟩
  simp only [predict]
  exact if_neg (lt_irrefl (calculateScore initialWeights emptyFeatures Color.GREEN))

/-- C2 (amended): whenever the UP (GREEN) score exactly equals the DOWN
(RED) score, `predict` deterministically returns DOWN (RED), because the
strict comparison `greenScore > redScore` fails on a tie. -/
theorem tie_resolves_down (w : Weights) (f : Features)
    (h : calculateScore w f Color.GREEN = calculateScore w f Color.RED) :
    predict w f = Color.RED := by
  unfold predict
  rw [h]
  simp

theorem tie_resolves_down_witness :
    predict initialWeights emptyFeatures = Color.RED :=
  tie_resolves_down initialWeights emptyFeatures rfl

/-- C3: `getConfidence` always returns a value in [0, 100]; it is computed
as `round(100 · max(scoreUP, scoreDOWN) / (scoreUP + scoreDOWN))` and
returns exactly 50 when both directional scores are zero, with no
division fault. -/
theorem confidence_spec (w : Weights) (f : Features) :
    (0 ≤ getConfidence w f ∧ getConfidence w f ≤ 100) ∧
    getConfidence w f =
      (if calculateScore w f Color.GREEN + calculateScore w f Color.RED = 0 then 50
       else jsRound (max (calculateScore w f Color.GREEN) (calculateScore w f Color.RED)
              / (calculateScore w f Color.GREEN + calculateScore w f Color.RED) * 100)) ∧
    (calculateScore w f Color.GREEN = 0 → calculateScore w f Color.RED = 0 →
      getConfidence w f = 50) := by
  obtain ⟨h1, h2⟩ := getConfidence_bounds w f
  refine ⟨⟨by linarith, h2⟩, rfl, fun hg hr => ?_⟩
  unfold getConfidence
  rw [hg, hr]
  norm_num

theorem confidence_spec_witness :
    getConfidence initialWeights emptyFeatures = 50 :=
  (confidence_spec initialWeights emptyFeatures).2.2
    (by norm_num [calculateScore, emptyFeatures, min_def, max_def])
    (by norm_num [calculateScore, emptyFeatures, min_def, max_def])

/-- C4 (counterexample): prediction is NOT deterministic for every engine
state. On an uninitialized engine (the state of `SignalGenerator`'s own
engine, which never runs `initialize`), `predict` answers from
`Math.random()`: two calls on the identical feature bundle and identical
weight state, differing only in the drawn random value, return GREEN
and RED respectively. -/
theorem predict_random_counterexample :
    uninitEngine.isInitialized = false ∧
    predictFull uninitEngine emptyFeatures (3/4) = Color.GREEN ∧
    predictFull uninitEngine emptyFeatures (1/4) = Color.RED ∧
    predictFull uninitEngine emptyFeatures (3/4) ≠ predictFull uninitEngine emptyFeatures (1/4) := by
  have h1 : predictFull uninitEngine emptyFeatures (3/4) = Color.GREEN := by
    norm_num [predictFull, uninitEngine]
  have h2 : predictFull uninitEngine emptyFeatures (1/4) = Color.RED := by
    norm_num [predictFull, uninitEngine]
  refine ⟨rfl, h1, h2, ?_⟩
  rw [h1, h2]
  exact green_ne_red

/-- C4 (amended): on an INITIALIZED engine state prediction is pure and
deterministic — the result does not depend on the `Math.random` draw,
so two calls on identical feature bundles and identical weight state
return identical results, equal to the pure scoring-path prediction;
and the engine state is always returned unchanged. On an uninitialized
state the source instead answers from `Math.random()`. -/
theorem predict_pure_initialized (e : EngineState) (f : Features) (r1 r2 : ℚ)
    (h : e.isInitialized = true) :
    predictFull e f r1 = predictFull e f r2 ∧
    predictFull e f r1 = predict e.weights f ∧
    (predictFullSt e f r1).2 = e := by
  simp [predictFull, predictFullSt, h]

theorem predict_pure_initialized_witness :
    predictFull ⟨true, initialWeights⟩ emptyFeatures 0
      = predictFull ⟨true, initialWeights⟩ emptyFeatures 1 ∧
    (predictFullSt ⟨true, initialWeights⟩ emptyFeatures 0).2 = ⟨true, initialWeights⟩ :=
  ⟨(predict_pure_initialized ⟨true, initialWeights⟩ emptyFeatures 0 1 rfl).1,
   (predict_pure_initialized ⟨true, initialWeights⟩ emptyFeatures 0 1 rfl).2.2⟩

/-- C7: after a training run reporting overall accuracy `a`, the weight
update multiplies every weight in every category by 1.01 when a > 80,
by 0.99 when a < 60, and leaves every weight unchanged when
60 ≤ a ≤ 80. -/
theorem updateWeights_rule (r : TrainResults) (w : Weights) :
    (80 < r.accuracy → updateWeights r w = scaleWeights (101/100) w) ∧
    (r.accuracy < 60 → updateWeights r w = scaleWeights (99/100) w) ∧
    (60 ≤ r.accuracy → r.accuracy ≤ 80 → updateWeights r w = w) := by
  refine ⟨fun h => ?_, fun h => ?_, fun h1 h2 => ?_⟩
  · simp [updateWeights, scaleWeights, h]
  · have hng : ¬ r.accuracy > 80 := by linarith
    simp [updateWeights, scaleWeights, hng, h]
  · have h3 : ¬ r.accuracy > 80 := by linarith
    have h4 : ¬ r.accuracy < 60 := by linarith
    simp [updateWeights, h3, h4]

theorem updateWeights_rule_witness :
    updateWeights ⟨90, 9, 10, 1⟩ initialWeights = scaleWeights (101/100) initialWeights ∧
    updateWeights ⟨50, 5, 10, 1⟩ initialWeights = scaleWeights (99/100) initialWeights ∧
    updateWeights ⟨70, 7, 10, 1⟩ initialWeights = initialWeights :=
  ⟨(updateWeights_rule ⟨90, 9, 10, 1⟩ initialWeights).1 (by norm_num),
   (updateWeights_rule ⟨50, 5, 10, 1⟩ initialWeights).2.1 (by norm_num),
   (updateWeights_rule ⟨70, 7, 10, 1⟩ initialWeights).2.2 (by norm_num) (by norm_num)⟩

/-- C8: whenever the prepared training samples number fewer than 100, the
train operation returns with the weight table exactly as it was and
produces no accuracy number. -/
theorem train_skips_small (Raw : Type) (prepare : List Raw → List Sample) (w : Weights)
    (epochs batchSize : ℕ) (data : List Raw)
    (h : (prepare data).length < 100) :
    train Raw prepare w epochs batchSize data = (w, none) := by
  simp [train, h]

theorem train_skips_small_witness :
    train ℕ (fun _ => ([] : List Sample)) initialWeights 100 32 [] = (initialWeights, none) :=
  train_skips_small ℕ (fun _ => ([] : List Sample)) initialWeights 100 32 [] (by decide)

/-- C6: the analyzer reports a valid pullback exactly when at least one
(peak, valley strictly between, next peak) pullback was identified and
the mean depth across all identified pullbacks exceeds 2%; every
identified pullback has depth `(peak − valley) / peak` and its valley
index strictly between its two peak indices. -/
theorem hasValidPullback_iff (marketData : List Obs) :
    ((analyzePullbacks marketData).hasValidPullback = true ↔
      (identifyPullbacks (findPeaks (marketData.map Obs.price))
          (findValleys (marketData.map Obs.price)) (marketData.map Obs.price) ≠ [] ∧
        2/100 <
          ((identifyPullbacks (findPeaks (marketData.map Obs.price))
              (findValleys (marketData.map Obs.price)) (marketData.map Obs.price)).map
            Pullback.depth).sum /
          ((identifyPullbacks (findPeaks (marketData.map Obs.price))
              (findValleys (marketData.map Obs.price)) (marketData.map Obs.price)).length : ℚ))) ∧
    ∀ pb ∈ identifyPullbacks (findPeaks (marketData.map Obs.price))
        (findValleys (marketData.map Obs.price)) (marketData.map Obs.price),
      pb.depth = (pb.peakPrice - pb.valleyPrice) / pb.peakPrice ∧
      pb.startIndex < pb.valleyIndex ∧ pb.valleyIndex < pb.endIndex := by
  constructor
  · have key : (analyzePullbacks marketData).hasValidPullback
        = (decide ((identifyPullbacks (findPeaks (marketData.map Obs.price))
              (findValleys (marketData.map Obs.price)) (marketData.map Obs.price)).length > 0)
          && decide ((calculatePullbackMetrics
                (identifyPullbacks (findPeaks (marketData.map Obs.price))
                  (findValleys (marketData.map Obs.price)) (marketData.map Obs.price))
                (marketData.map Obs.price)
                (marketData.map (fun d => d.volume.getD 0))).avgDepth > 2/100)) := rfl
    rw [key]
    cases hP : identifyPullbacks (findPeaks (marketData.map Obs.price))
        (findValleys (marketData.map Obs.price)) (marketData.map Obs.price) with
    | nil => simp [calculatePullbackMetrics]
    | cons pb rest => simp [calculatePullbackMetrics, List.length_map]
  · intro pb hpb
    unfold identifyPullbacks at hpb
    rw [List.mem_filterMap] at hpb
    obtain ⟨pk, hmem, hsome⟩ := hpb
    cases hfind : List.find?
        (fun v => decide (pk.1.index < v.index) && decide (v.index < pk.2.index))
        (findValleys (marketData.map Obs.price)) with
    | none => rw [hfind] at hsome; simp at hsome
    | some valley =>
      rw [hfind] at hsome
      have hcond := List.find?_some hfind
      simp only [Bool.and_eq_true, decide_eq_true_eq] at hcond
      simp only [Option.map_some'] at hsome
      have hpb2 := Option.some.inj hsome
      subst hpb2
      exact ⟨rfl, hcond.1, hcond.2⟩

theorem hasValidPullback_iff_witness :
    (analyzePullbacks mdPullback).hasValidPullback = true ∧
    (pbWitness.depth = (pbWitness.peakPrice - pbWitness.valleyPrice) / pbWitness.peakPrice ∧
      pbWitness.startIndex < pbWitness.valleyIndex ∧
      pbWitness.valleyIndex < pbWitness.endIndex) := by
  have heval : identifyPullbacks (findPeaks (mdPullback.map Obs.price))
      (findValleys (mdPullback.map Obs.price)) (mdPullback.map Obs.price) = [pbWitness] := by
    norm_num [mdPullback, identifyPullbacks, findPeaks, findValleys, findPeaksAux, findValleysAux,
      List.find?, calculatePullbackStrength, pbWitness, List.filterMap_cons, List.filterMap_nil,
      Option.map_some', Pullback.mk.injEq]
  refine ⟨(hasValidPullback_iff mdPullback).1.mpr ⟨?_, ?_⟩,
    (hasValidPullback_iff mdPullback).2 pbWitness ?_⟩
  · rw [heval]; simp
  · rw [heval]; norm_num [pbWitness]
  · rw [heval]; simp

/-- C5 (counterexample): `calculateRSI` reads the transitions at the START
of the price array. On sixteen prices whose first fourteen transitions
are all gains but whose last transition is a large loss, the code
returns exactly 100, while the value over the LAST fourteen transitions
(as the claim states it) is 325/7 ≈ 46.4. -/
theorem rsi_window_counterexample :
    calculateRSI pricesGainThenDrop 14 = some 100 ∧
    rsiSpecLastTransitions pricesGainThenDrop 14 = some (325/7) ∧
    ((100 : ℚ) ≠ 325/7) := by
  refine ⟨?_, ?_, by norm_num⟩
  · unfold calculateRSI
    rw [if_neg (by norm_num [pricesGainThenDrop])]
    rw [rsi_fold_eq pricesGainThenDrop 14 (by norm_num [pricesGainThenDrop]) 0 0]
    norm_num [pricesGainThenDrop, deltasList, gainSum, lossSum, List.zipWith]
  · unfold rsiSpecLastTransitions
    rw [if_neg (by norm_num [pricesGainThenDrop])]
    norm_num [pricesGainThenDrop, deltasList, gainSum, lossSum, List.zipWith, abs_of_nonpos]

/-- C5 (amended): for every price sequence with at least `period + 1`
samples (period positive), `calculateRSI` equals the average of the
positive deltas over the average of the negative deltas across the
FIRST `period` transitions of the sequence, mapped through
`100 − 100/(1 + rs)`, and it is exactly 100 whenever those first
`period` deltas are all gains (average loss zero) — never a division
fault. -/
theorem rsi_first_transitions (prices : List ℚ) (period : ℕ)
    (hp : 0 < period) (hlen : period + 1 ≤ prices.length) :
    (calculateRSI prices period
      = some (if lossSum ((deltasList prices).take period) / period = 0 then 100
              else 100 - 100 / (1 + (gainSum ((deltasList prices).take period) / period)
                    / (lossSum ((deltasList prices).take period) / period)))) ∧
    ((∀ i, i < period → prices.getD i 0 < prices.getD (i + 1) 0) →
      calculateRSI prices period = some 100) := by
  have hnot : ¬ prices.length < period + 1 := by omega
  have hmain : calculateRSI prices period
      = some (if lossSum ((deltasList prices).take period) / period = 0 then 100
              else 100 - 100 / (1 + (gainSum ((deltasList prices).take period) / period)
                    / (lossSum ((deltasList prices).take period) / period))) := by
    unfold calculateRSI
    rw [if_neg hnot]
    rw [rsi_fold_eq prices period hlen 0 0]
    simp only [zero_add]
    rw [apply_ite Option.some]
  refine ⟨hmain, fun hall => ?_⟩
  have hzero : lossSum ((deltasList prices).take period) = 0 := by
    unfold lossSum
    apply List.sum_eq_zero
    intro x hx
    rw [List.mem_map] at hx
    obtain ⟨d, hd, hdx⟩ := hx
    obtain ⟨j, hj, hjd⟩ := List.getElem_of_mem hd
    have hjp : j < period := by
      have := hj
      simp only [List.length_take] at this
      omega
    have hjlen : j < (deltasList prices).length := by
      have := hj
      simp only [List.length_take] at this
      omega
    have hdval : d = prices.getD (j + 1) 0 - prices.getD j 0 := by
      rw [← hjd, List.getElem_take]
      exact deltasList_getElem prices j hjlen
    have hdpos : 0 < d := by
      rw [hdval]
      have := hall j hjp
      linarith
    rw [← hdx, if_pos hdpos]
  rw [hmain, hzero]
  simp

theorem rsi_first_transitions_witness :
    calculateRSI pricesAllGains 14 = some 100 :=
  (rsi_first_transitions pricesAllGains 14 (by norm_num)
      (by norm_num [pricesAllGains])).2
    (by
      intro i hi
      interval_cases i <;>
        norm_num [pricesAllGains, List.getD_cons_zero, List.getD_cons_succ])

/-- C9 (counterexample): a window whose latest observation carries the
PRESENT volume 0 — below the 1000 floor — is not rejected: JavaScript
truthiness skips the volume gate for a zero volume, and with every
other gate passing the validator returns `true`, not a rejection. -/
theorem volume_zero_counterexample :
    mdVolZero.getLast? = some ⟨0, 100, some 0⟩ ∧
    ((0 : ℚ) < 1000) ∧
    validateSignal 85 ⟨90, some true⟩ mdVolZero 0 = true := by
  refine ⟨rfl, by norm_num, ?_⟩
  norm_num [validateSignal, mdVolZero, takeLast, returnsVariance, returnsOf, List.zipWith]

/-- C9 (amended): whenever the latest observation of the window carries a
present NONZERO volume below the floor of 1000, the validator returns
`false` (an absence, never an exception), regardless of the signal's
confidence and of every other gate. -/
theorem volume_floor_rejects (confidenceThreshold : ℤ) (signal : SignalRec)
    (marketData : List Obs) (now : ℤ) (latest : Obs) (v : ℚ)
    (hlast : marketData.getLast? = some latest)
    (hvol : latest.volume = some v) (hne : v ≠ 0) (hlt : v < 1000) :
    validateSignal confidenceThreshold signal marketData now = false := by
  unfold validateSignal
  split
  · rfl
  · simp only [hlast]
    split
    · rfl
    · simp [hvol, hne, hlt]

theorem volume_floor_rejects_witness :
    validateSignal 85 ⟨90, some true⟩ mdVolLow 0 = false :=
  volume_floor_rejects 85 ⟨90, some true⟩ mdVolLow 0 ⟨0, 100, some 500⟩ 500
    rfl rfl (by norm_num) (by norm_num)

/-- C10: the confidence is never below 50 (and never above 100): the two
directional scores are clamped non-negative, so the larger is at least
half their sum; a confidence threshold of 50 or less filters nothing. -/
theorem confidence_at_least_fifty (w : Weights) (f : Features) :
    50 ≤ getConfidence w f ∧ getConfidence w f ≤ 100 :=
  getConfidence_bounds w f

end Revela
